import Mathlib

/-!
Verification of the language classification engine of the TTS voice agent
(`modules/language_detector.py`).

Modelling conventions:
* A Python string is a list of Unicode code points (`List Nat`); the
  possibly-`None` argument of `detect` is an `Option (List Nat)`.
* Python floats are modelled as exact rationals (`ℚ`): every arithmetic
  operation the detector performs (division, multiplication by 100,
  addition of 20, `min` with 99, order comparisons) is exact on the
  rationals.
* The optional third-party statistical detector (`langdetect`) is external
  to the repository; it is modelled as an oracle parameter
  `oracle : List Nat → Option String` giving, for each text, the language
  code `langdetect.detect` would return (`none` models a raised
  `LangDetectException`).  The mapping of the oracle's answer into the two
  supported codes is repository code and is embedded below.
* A Python call that can raise an uncaught exception is embedded as
  `Except String _`: `Except.error` is a raised exception escaping the
  call, `Except.ok` a normally returned value.  `detect`'s first
  statement, `logger.debug(f"Detecting language for text: {text[:50]}...")`,
  slices `text` before `_validate_input` runs, so `detect(None)` raises
  `TypeError` instead of reaching the in-band `"Text cannot be None"`
  branch; for string arguments no statement can raise and the in-band
  result is always returned.  Pure helpers (`_detect_by_unicode`,
  `_validate_input`, `is_mixed_language`) are total and raise nothing.
-/

namespace LangDetect

/-- Code points satisfying Python's `str.isspace` (Unicode whitespace plus
the bidirectional control characters Python includes). -/
def pythonWhitespace : List Nat :=
  [0x09, 0x0A, 0x0B, 0x0C, 0x0D, 0x1C, 0x1D, 0x1E, 0x1F, 0x20,
   0x85, 0xA0, 0x1680,
   0x2000, 0x2001, 0x2002, 0x2003, 0x2004, 0x2005, 0x2006, 0x2007,
   0x2008, 0x2009, 0x200A, 0x2028, 0x2029, 0x202F, 0x205F, 0x3000]

/-- `char.isspace()` on a code point. -/
def isSpace (c : Nat) : Bool := pythonWhitespace.contains c

/-- The fixed punctuation exclusion set of the classifier, the characters
of the Python literal with code points
`. , ! ? ; : ' " ( ) - [ ] x7b x7d`. -/
def punctuationChars : List Nat :=
  [0x2E, 0x2C, 0x21, 0x3F, 0x3B, 0x3A, 0x27, 0x22, 0x28, 0x29,
   0x2D, 0x5B, 0x5D, 0x7B, 0x7D]

/-- `char in '.,!?;:...'` membership test of the classifier. -/
def isPunct (c : Nat) : Bool := punctuationChars.contains c

/-- A character is skipped by the classifier when it is whitespace or in
the punctuation set; otherwise it is analyzable. -/
def isSkipped (c : Nat) : Bool := isSpace c || isPunct c

/-- `URDU_UNICODE_RANGES`: the inclusive code-point ranges of the target
(Arabic-derived) script. -/
def URDU_UNICODE_RANGES : List (Nat × Nat) :=
  [(0x0600, 0x06FF), (0x0750, 0x077F), (0xFB50, 0xFDFF), (0xFE70, 0xFEFF)]

/-- Membership of a code point in some range of `URDU_UNICODE_RANGES`
(the per-character inner loop with `break`). -/
def inUrduRange (c : Nat) : Bool :=
  URDU_UNICODE_RANGES.any (fun r => decide (r.1 ≤ c) && decide (c ≤ r.2))

/-- `URDU_THRESHOLD = 0.30`. -/
def URDU_THRESHOLD : ℚ := 30 / 100

/-- `total_chars`: number of analyzable (non-skipped) characters. -/
def totalChars (text : List Nat) : Nat :=
  (text.filter (fun c => !isSkipped c)).length

/-- `urdu_chars`: number of analyzable characters inside the target
ranges. -/
def urduChars (text : List Nat) : Nat :=
  (text.filter (fun c => !isSkipped c && inUrduRange c)).length

/-- The target-script ratio `urdu_chars / total_chars` as an exact
rational (only meaningful when `totalChars text ≠ 0`). -/
def targetScriptRatio (text : List Nat) : ℚ :=
  (urduChars text : ℚ) / (totalChars text : ℚ)

/-- The ephemeral `{'language': ..., 'confidence': ...}` dict returned by
`_detect_by_unicode`. -/
structure ScriptAnalysis where
  language : String
  confidence : ℚ
deriving DecidableEq

/-- `LanguageDetector._detect_by_unicode`. -/
def detectByUnicode (text : List Nat) : ScriptAnalysis :=
  let total := totalChars text
  let urdu := urduChars text
  if total = 0 then
    { language := "en", confidence := 50 }
  else
    let urduPercentage : ℚ := (urdu : ℚ) / (total : ℚ) * 100
    if urduPercentage > URDU_THRESHOLD * 100 then
      { language := "ur", confidence := min (urduPercentage + 20) 99 }
    else
      { language := "en", confidence := min ((100 - urduPercentage) + 20) 99 }

/-- The `{'success': ..., 'language': ..., 'confidence': ...}` dict
returned by `_detect_by_library`. -/
structure LibraryResult where
  success : Bool
  language : String
  confidence : ℚ
deriving DecidableEq

/-- `LanguageDetector._detect_by_library`: `available` models
`LANGDETECT_AVAILABLE`; `answer` is what `langdetect.detect(text)`
returned (`none` = `LangDetectException`). -/
def detectByLibrary (available : Bool) (answer : Option String) : LibraryResult :=
  if !available then
    { success := false, language := "", confidence := 0 }
  else
    match answer with
    | none => { success := false, language := "", confidence := 0 }
    | some detectedLang =>
      if detectedLang = "ur" then
        { success := true, language := "ur", confidence := 95 }
      else if detectedLang = "en" then
        { success := true, language := "en", confidence := 95 }
      else
        { success := true, language := "en", confidence := 60 }

/-- Python `str.strip()`: remove leading and trailing whitespace. -/
def stripText (text : List Nat) : List Nat :=
  ((text.dropWhile isSpace).reverse.dropWhile isSpace).reverse

/-- `LanguageDetector._validate_input`.  The `isinstance(text, str)` check
cannot fire in the typed embedding (every `some` argument is a string), so
only the `None`, emptiness and length checks appear. -/
def validateInput : Option (List Nat) → Option String
  | none => some "Text cannot be None"
  | some text =>
    if (stripText text).length = 0 then
      some "Text cannot be empty or only whitespace"
    else if (stripText text).length < 3 then
      some "Text too short for reliable detection (minimum 3 characters)"
    else
      none

/-- `LanguageDetectionResult` dataclass. -/
structure LanguageDetectionResult where
  success : Bool
  language : String
  confidence : ℚ
  method : String
  text_sample : List Nat
  char_count : Nat
  error : Option String
deriving DecidableEq

/-- The message of the `TypeError` raised by `text[:50]` when `text` is
`None`. -/
def typeErrorNoneSlice : String :=
  "TypeError: 'NoneType' object is not subscriptable"

/-- The body of `LanguageDetector.detect` once `text` is an actual string
(so the debug-line slice `text[:50]` cannot raise):
* `useLibraryFallback` is the constructor flag `use_library_fallback`,
  `available` is `LANGDETECT_AVAILABLE`; `self.use_fallback` is their
  conjunction, as in `__init__`.
* Step ordering mirrors the source: validate, primary unicode pass
  (accepted when confidence `> 70`), library fallback (when enabled and
  its result reports success), default to the unicode result.
  The fallback branch computes the library result unconditionally; the
  source only computes it under `use_fallback`, but the computation is
  pure and its value is only consulted when `use_fallback` holds. -/
def detectOnString (useLibraryFallback available : Bool)
    (oracle : List Nat → Option String)
    (text : List Nat) : LanguageDetectionResult :=
  match validateInput (some text) with
  | some validationError =>
    { success := false, language := "", confidence := 0, method := "",
      text_sample := [], char_count := 0, error := some validationError }
  | none =>
    let useFallback := useLibraryFallback && available
    let unicodeResult := detectByUnicode text
    if unicodeResult.confidence > 70 then
      { success := true, language := unicodeResult.language,
        confidence := unicodeResult.confidence, method := "unicode",
        text_sample := text.take 100, char_count := text.length,
        error := none }
    else
      let libraryResult := detectByLibrary available (oracle text)
      if useFallback && libraryResult.success then
        { success := true, language := libraryResult.language,
          confidence := libraryResult.confidence, method := "library",
          text_sample := text.take 100, char_count := text.length,
          error := none }
      else
        { success := true, language := unicodeResult.language,
          confidence := unicodeResult.confidence, method := "unicode",
          text_sample := text.take 100, char_count := text.length,
          error := none }

/-- `LanguageDetector.detect` as observed by a caller.  Its first
statement is `logger.debug(f"... {text[:50]}...")`; the f-string slices
`text` *before* `_validate_input` runs, so a `None` argument raises
`TypeError` out of `detect` (`Except.error`) and the in-band
`"Text cannot be None"` branch of `_validate_input` is unreachable from
here.  String arguments cannot raise and take the in-band path. -/
def detect (useLibraryFallback available : Bool)
    (oracle : List Nat → Option String)
    (input : Option (List Nat)) : Except String LanguageDetectionResult :=
  match input with
  | none => Except.error typeErrorNoneSlice
  | some text =>
    Except.ok (detectOnString useLibraryFallback available oracle text)

/-- `LanguageDetector.is_mixed_language` (threshold defaults to `0.20` at
the call site; it is an explicit parameter here). -/
def is_mixed_language (text : List Nat) (threshold : ℚ) : Bool :=
  let total := totalChars text
  if total = 0 then
    false
  else
    let urduPercentage : ℚ := (urduChars text : ℚ) / (total : ℚ)
    decide (threshold ≤ urduPercentage) && decide (urduPercentage ≤ 1 - threshold)

/-- The default `threshold` argument of `is_mixed_language`. -/
def defaultMixedThreshold : ℚ := 20 / 100

/-- Module-level convenience `detect_language`: builds a
`LanguageDetector()` with the default `use_library_fallback = True`; an
exception raised by `detect` propagates through it uncaught. -/
def detect_language (available : Bool) (oracle : List Nat → Option String)
    (input : Option (List Nat)) : Except String LanguageDetectionResult :=
  detect true available oracle input

/-- Module-level convenience `quick_detect`; it installs no handler, so
an exception from `detect_language` propagates to its caller. -/
def quick_detect (available : Bool) (oracle : List Nat → Option String)
    (input : Option (List Nat)) : Except String String :=
  match detect_language available oracle input with
  | Except.error e => Except.error e
  | Except.ok result =>
    Except.ok (if result.success then result.language else "en")

end LangDetect

namespace LangDetect

/-! ### Basic lemmas about the character statistics -/

lemma urduChars_le_totalChars (text : List Nat) : urduChars text ≤ totalChars text := by
  unfold urduChars totalChars
  induction text with
  | nil => simp
  | cons c cs ih =>
    simp only [List.filter_cons]
    cases h1 : (!isSkipped c) <;> cases h2 : inUrduRange c <;>
      simp [h1, h2] <;> omega

lemma totalChars_cast_pos {text : List Nat} (h : totalChars text ≠ 0) :
    (0 : ℚ) < (totalChars text : ℚ) := by
  exact_mod_cast Nat.pos_of_ne_zero h

lemma targetScriptRatio_nonneg (text : List Nat) : 0 ≤ targetScriptRatio text := by
  unfold targetScriptRatio
  positivity

lemma targetScriptRatio_le_one (text : List Nat) (h : totalChars text ≠ 0) :
    targetScriptRatio text ≤ 1 := by
  unfold targetScriptRatio
  rw [div_le_one (totalChars_cast_pos h)]
  exact_mod_cast urduChars_le_totalChars text

lemma targetScriptRatio_of_total_eq_zero (text : List Nat) (h : totalChars text = 0) :
    targetScriptRatio text = 0 := by
  unfold targetScriptRatio
  rw [h]
  simp

lemma threshold_mul_hundred : URDU_THRESHOLD * 100 = 30 := by
  norm_num [URDU_THRESHOLD]

/-! ### Branch lemmas for the script classifier -/

lemma detectByUnicode_eq_low (text : List Nat) (h0 : totalChars text ≠ 0)
    (hp : targetScriptRatio text * 100 ≤ 30) :
    detectByUnicode text =
      { language := "en",
        confidence := min (100 - targetScriptRatio text * 100 + 20) 99 } := by
  simp only [detectByUnicode, targetScriptRatio] at *
  rw [if_neg h0, if_neg]
  rw [threshold_mul_hundred]
  exact not_lt.mpr hp

lemma detectByUnicode_eq_high (text : List Nat) (h0 : totalChars text ≠ 0)
    (hp : 30 < targetScriptRatio text * 100) :
    detectByUnicode text =
      { language := "ur",
        confidence := min (targetScriptRatio text * 100 + 20) 99 } := by
  simp only [detectByUnicode, targetScriptRatio] at *
  rw [if_neg h0, if_pos]
  rw [threshold_mul_hundred]
  exact hp

lemma detectByUnicode_language (text : List Nat) :
    (detectByUnicode text).language = "en" ∨ (detectByUnicode text).language = "ur" := by
  simp only [detectByUnicode]
  split
  · left; rfl
  · split
    · right; rfl
    · left; rfl

lemma detectByLibrary_language_of_success (available : Bool) (answer : Option String)
    (h : (detectByLibrary available answer).success = true) :
    (detectByLibrary available answer).language = "en" ∨
      (detectByLibrary available answer).language = "ur" := by
  unfold detectByLibrary at *
  cases available with
  | false => simp at h
  | true =>
    cases answer with
    | none => simp at h
    | some detectedLang =>
      simp only [Bool.not_true, Bool.false_eq_true, if_false] at *
      split
      · right; rfl
      · split
        · left; rfl
        · left; rfl

/-! ### Branch lemma for the orchestrator after successful validation -/

lemma detectOnString_valid (u a : Bool) (o : List Nat → Option String) (text : List Nat)
    (hv : validateInput (some text) = none) :
    detectOnString u a o text =
      (if (detectByUnicode text).confidence > 70 then
        { success := true, language := (detectByUnicode text).language,
          confidence := (detectByUnicode text).confidence, method := "unicode",
          text_sample := text.take 100, char_count := text.length, error := none }
      else if (u && a) && (detectByLibrary a (o text)).success then
        { success := true, language := (detectByLibrary a (o text)).language,
          confidence := (detectByLibrary a (o text)).confidence, method := "library",
          text_sample := text.take 100, char_count := text.length, error := none }
      else
        { success := true, language := (detectByUnicode text).language,
          confidence := (detectByUnicode text).confidence, method := "unicode",
          text_sample := text.take 100, char_count := text.length, error := none }) := by
  simp only [detectOnString, hv]

end LangDetect

namespace LangDetect

lemma detectOnString_language_of_success (u a : Bool) (o : List Nat → Option String)
    (text : List Nat) (h : (detectOnString u a o text).success = true) :
    (detectOnString u a o text).language = "en" ∨
      (detectOnString u a o text).language = "ur" := by
  cases hv : validateInput (some text) with
  | some err => simp [detectOnString, hv] at h
  | none =>
    rw [detectOnString_valid u a o text hv]
    by_cases hconf : (detectByUnicode text).confidence > 70
    · rw [if_pos hconf]
      simpa using detectByUnicode_language text
    · rw [if_neg hconf]
      by_cases hlib : ((u && a) && (detectByLibrary a (o text)).success) = true
      · rw [if_pos hlib]
        have hsucc : (detectByLibrary a (o text)).success = true :=
          (Bool.and_eq_true _ _).mp hlib |>.2
        simpa using detectByLibrary_language_of_success a (o text) hsucc
      · rw [if_neg hlib]
        simpa using detectByUnicode_language text

/-- C2: once validation passes, `detect` raises nothing and returns a
result with `success = true` — every post-validation branch of the
orchestrator (confident primary pass, successful library fallback,
low-confidence default) produces a successful result.  (An input passing
validation is necessarily a string, so the debug-line slice cannot
raise.) -/
theorem C2_success_after_validation (u a : Bool) (o : List Nat → Option String)
    (input : Option (List Nat)) (h : validateInput input = none) :
    ∃ r : LanguageDetectionResult,
      detect u a o input = Except.ok r ∧ r.success = true := by
  cases input with
  | none => simp [validateInput] at h
  | some text =>
    refine ⟨detectOnString u a o text, rfl, ?_⟩
    rw [detectOnString_valid u a o text h]
    by_cases hconf : (detectByUnicode text).confidence > 70
    · rw [if_pos hconf]
    · rw [if_neg hconf]
      by_cases hlib : ((u && a) && (detectByLibrary a (o text)).success) = true
      · rw [if_pos hlib]
      · rw [if_neg hlib]

/-- Witness for C2 at the concrete valid input `"Hi!"`. -/
theorem C2_success_after_validation_witness :
    validateInput (some [72, 105, 33]) = none ∧
    (∃ r : LanguageDetectionResult,
      detect false false (fun _ => none) (some [72, 105, 33]) = Except.ok r ∧
        r.success = true) :=
  ⟨by decide, C2_success_after_validation false false (fun _ => none)
    (some [72, 105, 33]) (by decide)⟩

/-- C3 (divergence record): the claim is right about the string inputs —
`detect` on `""`, `"  "` and `"Hi"` returns an in-band failure
(`success = false`) and on `"Hi!"` an in-band success, with every string
input answered by a returned result, never an exception — but on `None`
the code raises `TypeError` from the debug-line slice `text[:50]`
(line 107) before validation runs, instead of returning the documented
in-band `success = false` result. -/
theorem C3_concrete_validation (u a : Bool) (o : List Nat → Option String) :
    detect u a o none = Except.error typeErrorNoneSlice ∧
    (detectOnString u a o []).success = false ∧
    (detectOnString u a o [0x20, 0x20]).success = false ∧
    (detectOnString u a o [72, 105]).success = false ∧
    (detectOnString u a o [72, 105, 33]).success = true ∧
    (∀ text : List Nat, detect u a o (some text) =
      Except.ok (detectOnString u a o text)) := by
  refine ⟨rfl, ?_, ?_, ?_, ?_, fun text => rfl⟩
  · simp +decide [detectOnString, validateInput, stripText]
  · simp +decide [detectOnString, validateInput, stripText, isSpace, pythonWhitespace]
  · simp +decide [detectOnString, validateInput, stripText, isSpace, pythonWhitespace]
  · simp +decide [detectOnString, validateInput, stripText, detectByUnicode,
      detectByLibrary, totalChars, urduChars, isSkipped, isSpace, isPunct,
      pythonWhitespace, punctuationChars, inUrduRange, URDU_UNICODE_RANGES,
      URDU_THRESHOLD, List.filter]
    norm_num

/-- C4: structural invariant of every `DetectionResult` actually returned
by `detect` (a raised exception returns nothing, so the `None` input is
outside the claim's scope): on failure the language is empty and the
confidence zero, and the error message is present exactly when
`success = false`. -/
theorem C4_result_invariant (u a : Bool) (o : List Nat → Option String)
    (input : Option (List Nat)) (r : LanguageDetectionResult)
    (h : detect u a o input = Except.ok r) :
    (r.success = false → r.language = "" ∧ r.confidence = 0) ∧
    (r.error ≠ none ↔ r.success = false) := by
  cases input with
  | none => simp [detect] at h
  | some text =>
    simp only [detect, Except.ok.injEq] at h
    subst h
    cases hv : validateInput (some text) with
    | some err => simp [detectOnString, hv]
    | none =>
      rw [detectOnString_valid u a o text hv]
      by_cases hconf : (detectByUnicode text).confidence > 70
      · rw [if_pos hconf]; simp
      · rw [if_neg hconf]
        by_cases hlib : ((u && a) && (detectByLibrary a (o text)).success) = true
        · rw [if_pos hlib]; simp
        · rw [if_neg hlib]; simp

/-- C7: the script classifier is a total function by construction, and on
degenerate input (zero analyzable characters) it returns exactly the
default-neutral result `{language := "en", confidence := 50}`. -/
theorem C7_degenerate_default (text : List Nat) (h : totalChars text = 0) :
    detectByUnicode text = { language := "en", confidence := 50 } := by
  simp [detectByUnicode, h]

/-- Witness for C7 at the whitespace-only input `" "`. -/
theorem C7_degenerate_default_witness :
    totalChars [0x20] = 0 ∧
    detectByUnicode [0x20] = { language := "en", confidence := 50 } :=
  ⟨by decide, C7_degenerate_default [0x20] (by decide)⟩

end LangDetect

namespace LangDetect

lemma pct_nonneg (text : List Nat) : 0 ≤ targetScriptRatio text * 100 := by
  have := targetScriptRatio_nonneg text
  linarith

lemma pct_le_hundred (text : List Nat) (h0 : totalChars text ≠ 0) :
    targetScriptRatio text * 100 ≤ 100 := by
  have := targetScriptRatio_le_one text h0
  linarith

lemma detectByUnicode_conf_high_of_low (text : List Nat) (h0 : totalChars text ≠ 0)
    (hp : targetScriptRatio text * 100 ≤ 30) :
    (detectByUnicode text).confidence > 70 ∧
      90 ≤ (detectByUnicode text).confidence ∧
      (detectByUnicode text).language = "en" := by
  rw [detectByUnicode_eq_low text h0 hp]
  dsimp only
  have h100 := pct_le_hundred text h0
  refine ⟨?_, ?_, rfl⟩
  · rw [gt_iff_lt, lt_min_iff]
    constructor <;> linarith
  · rw [le_min_iff]
    constructor <;> linarith

/-- C5: for every validated input with at least one analyzable character
and target-script ratio at most 30%, `detect` classifies as English: the
script classifier answers `"en"` with confidence at least 90, which the
orchestrator accepts immediately and returns in-band. -/
theorem C5_low_ratio_english (u a : Bool) (o : List Nat → Option String)
    (text : List Nat) (hv : validateInput (some text) = none)
    (h0 : totalChars text ≠ 0)
    (hr : targetScriptRatio text ≤ 3 / 10) :
    ∃ r : LanguageDetectionResult,
      detect u a o (some text) = Except.ok r ∧ r.language = "en" := by
  have hp : targetScriptRatio text * 100 ≤ 30 := by linarith
  obtain ⟨hconf, _, hlang⟩ := detectByUnicode_conf_high_of_low text h0 hp
  refine ⟨detectOnString u a o text, rfl, ?_⟩
  rw [detectOnString_valid u a o text hv, if_pos hconf]
  simpa using hlang

/-- Witness for C5 at the concrete valid input `"abc"`. -/
theorem C5_low_ratio_english_witness :
    validateInput (some [97, 98, 99]) = none ∧
    totalChars [97, 98, 99] ≠ 0 ∧
    targetScriptRatio [97, 98, 99] ≤ 3 / 10 ∧
    (∃ r : LanguageDetectionResult,
      detect false false (fun _ => none) (some [97, 98, 99]) = Except.ok r ∧
        r.language = "en") := by
  have hu : urduChars [97, 98, 99] = 0 := by decide
  have ht : totalChars [97, 98, 99] = 3 := by decide
  have hr : targetScriptRatio [97, 98, 99] ≤ 3 / 10 := by
    unfold targetScriptRatio
    rw [hu, ht]
    norm_num
  exact ⟨by decide, by decide, hr,
    C5_low_ratio_english false false (fun _ => none) [97, 98, 99] (by decide)
      (by decide) hr⟩

/-- C10: under the same hypotheses as C5, the script classifier's
confidence is at least 90, so the orchestrator accepts the primary pass:
the result is successful, English, and carries the script/unicode method
tag — the statistical fallback is never consulted. -/
theorem C10_english_primary_only (u a : Bool) (o : List Nat → Option String)
    (text : List Nat) (hv : validateInput (some text) = none)
    (h0 : totalChars text ≠ 0)
    (hr : targetScriptRatio text ≤ 3 / 10) :
    90 ≤ (detectByUnicode text).confidence ∧
    (∃ r : LanguageDetectionResult, detect u a o (some text) = Except.ok r ∧
      r.method = "unicode" ∧ r.language = "en" ∧ r.success = true) := by
  have hp : targetScriptRatio text * 100 ≤ 30 := by linarith
  obtain ⟨hconf, h90, hlang⟩ := detectByUnicode_conf_high_of_low text h0 hp
  refine ⟨h90, detectOnString u a o text, rfl, ?_⟩
  rw [detectOnString_valid u a o text hv, if_pos hconf]
  exact ⟨rfl, by simpa using hlang, rfl⟩

/-- Witness for C10 at the concrete valid input `"Hello"`. -/
theorem C10_english_primary_only_witness :
    validateInput (some [72, 101, 108, 108, 111]) = none ∧
    totalChars [72, 101, 108, 108, 111] ≠ 0 ∧
    targetScriptRatio [72, 101, 108, 108, 111] ≤ 3 / 10 ∧
    (90 ≤ (detectByUnicode [72, 101, 108, 108, 111]).confidence ∧
      (∃ r : LanguageDetectionResult,
        detect true true (fun _ => some "en") (some [72, 101, 108, 108, 111]) =
          Except.ok r ∧
        r.method = "unicode" ∧ r.language = "en" ∧ r.success = true)) := by
  have hu : urduChars [72, 101, 108, 108, 111] = 0 := by decide
  have ht : totalChars [72, 101, 108, 108, 111] = 5 := by decide
  have hr : targetScriptRatio [72, 101, 108, 108, 111] ≤ 3 / 10 := by
    unfold targetScriptRatio
    rw [hu, ht]
    norm_num
  exact ⟨by decide, by decide, hr,
    C10_english_primary_only true true (fun _ => some "en") [72, 101, 108, 108, 111]
      (by decide) (by decide) hr⟩

end LangDetect

namespace LangDetect

/-- C1 (amended): for every validated input with target-script ratio above
30%, `detect` returns `"ur"` provided the statistical fallback cannot
override — that is, whenever the ratio exceeds 50% (the script confidence
then exceeds 70 and the primary pass is accepted immediately) or the
fallback is disabled/unavailable.  In the remaining band (ratio in
(30%, 50%]) a successful fallback decides the language instead. -/
theorem C1_high_ratio_urdu (u a : Bool) (o : List Nat → Option String)
    (text : List Nat) (hv : validateInput (some text) = none)
    (hr : 3 / 10 < targetScriptRatio text)
    (hcase : 1 / 2 < targetScriptRatio text ∨ (u && a) = false) :
    ∃ r : LanguageDetectionResult,
      detect u a o (some text) = Except.ok r ∧ r.language = "ur" := by
  have h0 : totalChars text ≠ 0 := by
    intro h
    rw [targetScriptRatio_of_total_eq_zero text h] at hr
    norm_num at hr
  have hp : 30 < targetScriptRatio text * 100 := by linarith
  have hhigh := detectByUnicode_eq_high text h0 hp
  refine ⟨detectOnString u a o text, rfl, ?_⟩
  rw [detectOnString_valid u a o text hv]
  rcases hcase with hc | hc
  · have hconf : (detectByUnicode text).confidence > 70 := by
      rw [hhigh]
      dsimp only
      rw [gt_iff_lt, lt_min_iff]
      constructor
      · linarith
      · norm_num
    rw [if_pos hconf]
    simp [hhigh]
  · by_cases hconf : (detectByUnicode text).confidence > 70
    · rw [if_pos hconf]
      simp [hhigh]
    · rw [if_neg hconf]
      simp only [hc, Bool.false_and, Bool.false_eq_true, if_false]
      simp [hhigh]

/-- Witness for C1 at the concrete pure-Urdu input `"سلام"` (ratio 100%). -/
theorem C1_high_ratio_urdu_witness :
    validateInput (some [0x633, 0x644, 0x627, 0x645]) = none ∧
    3 / 10 < targetScriptRatio [0x633, 0x644, 0x627, 0x645] ∧
    1 / 2 < targetScriptRatio [0x633, 0x644, 0x627, 0x645] ∧
    (∃ r : LanguageDetectionResult,
      detect true true (fun _ => some "en") (some [0x633, 0x644, 0x627, 0x645]) =
        Except.ok r ∧ r.language = "ur") := by
  have hu : urduChars [0x633, 0x644, 0x627, 0x645] = 4 := by decide
  have ht : totalChars [0x633, 0x644, 0x627, 0x645] = 4 := by decide
  have hr1 : (3 : ℚ) / 10 < targetScriptRatio [0x633, 0x644, 0x627, 0x645] := by
    unfold targetScriptRatio
    rw [hu, ht]
    norm_num
  have hr2 : (1 : ℚ) / 2 < targetScriptRatio [0x633, 0x644, 0x627, 0x645] := by
    unfold targetScriptRatio
    rw [hu, ht]
    norm_num
  exact ⟨by decide, hr1, hr2,
    C1_high_ratio_urdu true true (fun _ => some "en") [0x633, 0x644, 0x627, 0x645]
      (by decide) hr1 (Or.inl hr2)⟩

/-- Counterexample to C1 as stated: the input `"سش abc"`-like text
`[0x633, 0x634, 97, 98, 99]` passes validation and has target-script
ratio 2/5 > 30%, yet with the fallback enabled and the statistical
detector answering `"en"` the orchestrator returns language `"en"`,
because the script confidence in the (30%, 50%] band is at most 70. -/
theorem C1_counterexample :
    validateInput (some [0x633, 0x634, 97, 98, 99]) = none ∧
    3 / 10 < targetScriptRatio [0x633, 0x634, 97, 98, 99] ∧
    detect true true (fun _ => some "en") (some [0x633, 0x634, 97, 98, 99]) =
      Except.ok (detectOnString true true (fun _ => some "en")
        [0x633, 0x634, 97, 98, 99]) ∧
    (detectOnString true true (fun _ => some "en")
      [0x633, 0x634, 97, 98, 99]).language = "en" := by
  have hu : urduChars [0x633, 0x634, 97, 98, 99] = 2 := by decide
  have ht : totalChars [0x633, 0x634, 97, 98, 99] = 5 := by decide
  refine ⟨by decide, ?_, rfl, ?_⟩
  · unfold targetScriptRatio
    rw [hu, ht]
    norm_num
  · simp +decide [detectOnString, validateInput, stripText, detectByUnicode,
      detectByLibrary, totalChars, urduChars, isSkipped, isSpace, isPunct,
      pythonWhitespace, punctuationChars, inUrduRange, URDU_UNICODE_RANGES,
      URDU_THRESHOLD, List.filter]
    norm_num

end LangDetect

namespace LangDetect

/-- C6 (amended): for non-degenerate input the script classifier's
confidence always lies in `[20, 99]`, and it increases monotonically with
the ratio's distance from the 50/50 midpoint on the English side
(ratio ≤ 30%) and on the decisively-Urdu side (ratio ≥ 50%); in the band
(30%, 50%] the confidence instead *decreases* with that distance
(it equals 70 minus the distance there), so global monotonicity fails. -/
theorem C6_confidence_shape :
    (∀ text : List Nat, totalChars text ≠ 0 →
      20 ≤ (detectByUnicode text).confidence ∧
        (detectByUnicode text).confidence ≤ 99) ∧
    (∀ t1 t2 : List Nat, totalChars t1 ≠ 0 → totalChars t2 ≠ 0 →
      targetScriptRatio t1 * 100 ≤ 30 → targetScriptRatio t2 * 100 ≤ 30 →
      |targetScriptRatio t1 * 100 - 50| ≤ |targetScriptRatio t2 * 100 - 50| →
      (detectByUnicode t1).confidence ≤ (detectByUnicode t2).confidence) ∧
    (∀ t1 t2 : List Nat, totalChars t1 ≠ 0 → totalChars t2 ≠ 0 →
      50 ≤ targetScriptRatio t1 * 100 → 50 ≤ targetScriptRatio t2 * 100 →
      |targetScriptRatio t1 * 100 - 50| ≤ |targetScriptRatio t2 * 100 - 50| →
      (detectByUnicode t1).confidence ≤ (detectByUnicode t2).confidence) := by
  refine ⟨?_, ?_, ?_⟩
  · intro text h0
    have hn := pct_nonneg text
    have h100 := pct_le_hundred text h0
    by_cases hp : targetScriptRatio text * 100 ≤ 30
    · rw [detectByUnicode_eq_low text h0 hp]
      dsimp only
      constructor
      · rw [le_min_iff]
        constructor <;> linarith
      · exact min_le_right _ _
    · push_neg at hp
      rw [detectByUnicode_eq_high text h0 hp]
      dsimp only
      constructor
      · rw [le_min_iff]
        constructor <;> linarith
      · exact min_le_right _ _
  · intro t1 t2 h01 h02 hp1 hp2 habs
    rw [abs_of_nonpos (by linarith), abs_of_nonpos (by linarith)] at habs
    rw [detectByUnicode_eq_low t1 h01 hp1, detectByUnicode_eq_low t2 h02 hp2]
    dsimp only
    exact min_le_min (by linarith) le_rfl
  · intro t1 t2 h01 h02 hp1 hp2 habs
    rw [abs_of_nonneg (by linarith), abs_of_nonneg (by linarith)] at habs
    rw [detectByUnicode_eq_high t1 h01 (by linarith),
      detectByUnicode_eq_high t2 h02 (by linarith)]
    dsimp only
    exact min_le_min (by linarith) le_rfl

/-- Witness for C6 at concrete inputs: bounds at `"a"`, the English-side
monotonicity at the pair (`"a"`, `"a"`), the Urdu-side monotonicity at the
pair (`"س"`, `"س"`). -/
theorem C6_confidence_shape_witness :
    (20 ≤ (detectByUnicode [97]).confidence ∧
      (detectByUnicode [97]).confidence ≤ 99) ∧
    (detectByUnicode [97]).confidence ≤ (detectByUnicode [97]).confidence ∧
    (detectByUnicode [0x633]).confidence ≤ (detectByUnicode [0x633]).confidence := by
  have ha : targetScriptRatio [97] = 0 := by
    have hu : urduChars [97] = 0 := by decide
    have ht : totalChars [97] = 1 := by decide
    unfold targetScriptRatio
    rw [hu, ht]
    norm_num
  have hs : targetScriptRatio [0x633] = 1 := by
    have hu : urduChars [0x633] = 1 := by decide
    have ht : totalChars [0x633] = 1 := by decide
    unfold targetScriptRatio
    rw [hu, ht]
    norm_num
  refine ⟨C6_confidence_shape.1 [97] (by decide), ?_, ?_⟩
  · exact C6_confidence_shape.2.1 [97] [97] (by decide) (by decide)
      (by rw [ha]; norm_num) (by rw [ha]; norm_num) le_rfl
  · exact C6_confidence_shape.2.2 [0x633] [0x633] (by decide) (by decide)
      (by rw [hs]; norm_num) (by rw [hs]; norm_num) le_rfl

/-- Counterexample to C6 as stated: the input `"سa"` sits exactly at the
midpoint (ratio 50%, distance 0) with confidence 70, while
`[0x633, 0x634, 97, 98, 99]` (ratio 40%) is *farther* from the midpoint
(distance 10) yet has strictly *smaller* confidence 60 — so confidence
does not increase monotonically with the distance from the midpoint. -/
theorem C6_counterexample :
    totalChars [0x633, 97] ≠ 0 ∧
    totalChars [0x633, 0x634, 97, 98, 99] ≠ 0 ∧
    |targetScriptRatio [0x633, 97] * 100 - 50| ≤
      |targetScriptRatio [0x633, 0x634, 97, 98, 99] * 100 - 50| ∧
    (detectByUnicode [0x633, 0x634, 97, 98, 99]).confidence <
      (detectByUnicode [0x633, 97]).confidence := by
  have r1 : targetScriptRatio [0x633, 97] = 1 / 2 := by
    have hu : urduChars [0x633, 97] = 1 := by decide
    have ht : totalChars [0x633, 97] = 2 := by decide
    unfold targetScriptRatio
    rw [hu, ht]
    norm_num
  have r2 : targetScriptRatio [0x633, 0x634, 97, 98, 99] = 2 / 5 := by
    have hu : urduChars [0x633, 0x634, 97, 98, 99] = 2 := by decide
    have ht : totalChars [0x633, 0x634, 97, 98, 99] = 5 := by decide
    unfold targetScriptRatio
    rw [hu, ht]
    norm_num
  refine ⟨by decide, by decide, ?_, ?_⟩
  · rw [r1, r2]
    rw [show (1 : ℚ) / 2 * 100 - 50 = 0 by norm_num, abs_zero]
    exact abs_nonneg _
  · rw [detectByUnicode_eq_high [0x633, 97] (by decide) (by rw [r1]; norm_num),
      detectByUnicode_eq_high [0x633, 0x634, 97, 98, 99] (by decide)
        (by rw [r2]; norm_num)]
    dsimp only
    rw [r1, r2]
    rw [min_def, min_def]
    norm_num

end LangDetect

namespace LangDetect

/-- C8: `is_mixed_language` holds exactly when there is at least one
analyzable character and the (independently recomputed) target-script
ratio lies in the closed interval `[threshold, 1 − threshold]`; in
particular it is `false` on inputs with zero analyzable characters, and
is total (defined for every text and threshold). -/
theorem C8_is_mixed_iff (text : List Nat) (threshold : ℚ) :
    is_mixed_language text threshold = true ↔
      (0 < totalChars text ∧ threshold ≤ targetScriptRatio text ∧
        targetScriptRatio text ≤ 1 - threshold) := by
  by_cases h : totalChars text = 0
  · simp [is_mixed_language, h]
  · have hpos : 0 < totalChars text := Nat.pos_of_ne_zero h
    simp [is_mixed_language, targetScriptRatio, h, hpos]

/-- Witness for C8 at the concrete mixed input `"سa"` with the default
threshold 0.20. -/
theorem C8_is_mixed_iff_witness :
    is_mixed_language [0x633, 97] defaultMixedThreshold = true ↔
      (0 < totalChars [0x633, 97] ∧
        defaultMixedThreshold ≤ targetScriptRatio [0x633, 97] ∧
        targetScriptRatio [0x633, 97] ≤ 1 - defaultMixedThreshold) :=
  C8_is_mixed_iff [0x633, 97] defaultMixedThreshold

/-- C9 (divergence record): for every string input the reduced form
behaves as claimed — `quick_detect` returns just `"en"` or `"ur"`,
answering `"en"` whenever the full result (`Except.ok` of
`detectOnString` with the default fallback flag) has `success = false` —
but on the `None` input it does *not* shield its caller: the `TypeError`
raised by `detect`'s debug-line slice propagates uncaught through
`detect_language` and `quick_detect`, contradicting "never surfaces an
error to its caller". -/
theorem C9_quick_detect_reduced (a : Bool) (o : List Nat → Option String) :
    quick_detect a o none = Except.error typeErrorNoneSlice ∧
    (∀ text : List Nat,
      detect_language a o (some text) =
        Except.ok (detectOnString true a o text) ∧
      ∃ s : String, quick_detect a o (some text) = Except.ok s ∧
        (s = "en" ∨ s = "ur") ∧
        ((detectOnString true a o text).success = false → s = "en")) := by
  refine ⟨rfl, fun text => ⟨rfl, ?_⟩⟩
  refine ⟨if (detectOnString true a o text).success then
    (detectOnString true a o text).language else "en", rfl, ?_, ?_⟩
  · by_cases hs : (detectOnString true a o text).success = true
    · rw [if_pos hs]
      exact detectOnString_language_of_success true a o text hs
    · rw [if_neg hs]
      left
      rfl
  · intro h
    simp [h]

/-- Witness for C4 at the concrete in-band failing input `"Hi"` (too
short, so `detect` returns `Except.ok` of a failed result). -/
theorem C4_result_invariant_witness :
    ((detectOnString false false (fun _ => none) [72, 105]).success = false →
      (detectOnString false false (fun _ => none) [72, 105]).language = "" ∧
        (detectOnString false false (fun _ => none) [72, 105]).confidence = 0) ∧
    ((detectOnString false false (fun _ => none) [72, 105]).error ≠ none ↔
      (detectOnString false false (fun _ => none) [72, 105]).success = false) :=
  C4_result_invariant false false (fun _ => none) (some [72, 105])
    (detectOnString false false (fun _ => none) [72, 105]) rfl

end LangDetect
